import Mathlib

/-!
Verification development for the InfraDon2 local-first document application
(Vue + PouchDB).  The definitions below are a shallow embedding of the
application's TypeScript functions (document normalisation, comment handling,
live-sync session management, query pipelines, index declarations, call
surface) together with spec-modelled definitions of the PouchDB/CouchDB
revision-store behaviour that the application delegates to (winner selection,
conflict detection, mango-query evaluation), which live outside the
repository's sources.
-/

namespace InfraDon

/-! ## Data model: documents as stored by the main component (part_000) -/

/-- JSON-like value occupying the raw `likes` field of an untyped document. -/
inductive JsonVal where
  | num (n : Int)
  | str (s : String)
  | boolean (b : Bool)
  | null
  deriving DecidableEq, Repr

/-- An untyped document as it arrives from PouchDB (`raw as Partial<InfraDoc>`
in `normalizeDoc`): every field may be absent, and `likes` may hold any
JSON value. -/
structure RawDoc where
  _id : Option String
  _rev : Option String
  _attachments : Option (List String)
  name : Option String
  content : Option String
  created_at : Option String
  updated_at : Option String
  likes : Option JsonVal
  deriving DecidableEq, Repr

/-- A normalised document (interface `InfraDoc` from part_000). -/
structure InfraDoc where
  _id : Option String
  _rev : Option String
  _attachments : Option (List String)
  name : String
  content : String
  created_at : String
  updated_at : Option String
  likes : Int
  deriving DecidableEq, Repr

/-- Embedding of `normalizeDoc` (part_000 lines 123-136).  The impure
`new Date().toISOString()` default for `created_at` is passed in as `now`. -/
def normalizeDoc (raw : RawDoc) (now : String) : InfraDoc :=
  { _id := raw._id
    _rev := raw._rev
    _attachments := raw._attachments
    name := raw.name.getD ""
    content := raw.content.getD ""
    created_at := raw.created_at.getD now
    updated_at := raw.updated_at
    likes := match raw.likes with
      | some (JsonVal.num n) => n
      | _ => 0 }

/-! ## Comments: `addComment` and the draft map (part_000) -/

/-- ASCII whitespace as removed by JavaScript `String.prototype.trim`
(space, tab, line feed, carriage return, vertical tab, form feed; the
further Unicode space code points behave the same way and are omitted). -/
def isJsWs (c : Char) : Bool :=
  c = ' ' || c = '\t' || c = '\n' || c = '\r' || c = Char.ofNat 11 || c = Char.ofNat 12

/-- Character-list version of JS `trim`: drop whitespace from both ends. -/
def jsTrimList (l : List Char) : List Char :=
  ((l.dropWhile isJsWs).reverse.dropWhile isJsWs).reverse

/-- JS `String.prototype.trim` on a string. -/
def jsTrim (s : String) : String := ⟨jsTrimList s.data⟩

/-- A comment in the separate comment collection (interface `InfraComment`
from part_000): a link to the parent document, the text, a timestamp. -/
structure InfraComment where
  docId : String
  text : String
  created_at : String
  deriving DecidableEq, Repr

/-- The state touched by `addComment`: the comment documents posted to the
local database and the `commentDrafts` map (absent keys read as `''`). -/
structure CommentState where
  store : List InfraComment
  drafts : String → Option String

/-- Embedding of `getDraft` (part_000 lines 394-396). -/
def getDraft (s : CommentState) (id : String) : String := (s.drafts id).getD ""

/-- Embedding of `addComment` (part_000 lines 413-429): return unchanged when
the document has no id or the draft trims to empty; otherwise `db.post` the
new comment and clear the draft. -/
def addComment (s : CommentState) (docId : Option String) (now : String) :
    CommentState :=
  match docId with
  | none => s
  | some id =>
    let draft := getDraft s id
    if jsTrim draft = "" then s
    else
      { store := s.store ++ [{ docId := id, text := jsTrim draft, created_at := now }]
        drafts := fun j => if j = id then some "" else s.drafts j }

/-! ## Live sync session management (part_000) -/

/-- The state read and written by `startLiveSync` / `stopLiveSync` in
part_000: the lazily initialised database handles, the module-level
`syncHandler` (a session, identified here by the number of the counter that
allocated it), the `isSyncing` flag, and the allocation counter. -/
structure LiveSyncState where
  localInit : Bool
  remoteInit : Bool
  syncHandler : Option Nat
  isSyncing : Bool
  nextSession : Nat
  deriving DecidableEq, Repr

/-- Embedding of `startLiveSync` (part_000 lines 611-634): `initLocalDb` and
`initRemoteDb` run first; then the guard `if (syncHandler) return` aborts when
a handler already exists; otherwise `isSyncing` is set and a new live
replication session is created and stored in `syncHandler`. -/
def startLiveSync (s : LiveSyncState) : LiveSyncState :=
  let s1 := { s with localInit := true, remoteInit := true }
  match s1.syncHandler with
  | some _ => s1
  | none =>
    { s1 with
      syncHandler := some s1.nextSession
      isSyncing := true
      nextSession := s1.nextSession + 1 }

/-- Embedding of `stopLiveSync` (part_000 lines 636-640). -/
def stopLiveSync (s : LiveSyncState) : LiveSyncState :=
  { s with syncHandler := none, isSyncing := false }

/-! ## CRUD and one-shot replication (part_000) -/

/-- Failure raised by a PouchDB replication call against an unreachable
remote peer. -/
inductive SyncError where
  | transient
  deriving DecidableEq, Repr

/-- Environment of a CRUD call: the UI `online` flag and whether the remote
peer is reachable for the duration of the call. -/
structure SyncEnv where
  online : Bool
  remoteReachable : Bool
  deriving DecidableEq, Repr

/-- Embedding of `manualSync` (part_000 lines 602-605): an awaited one-shot
`replicate.from` then `replicate.to` with no retry option; the returned
promise rejects when the remote peer is unreachable. -/
def manualSync (env : SyncEnv) : Except SyncError Unit :=
  if env.remoteReachable then Except.ok () else Except.error SyncError.transient

/-- Embedding of `createDoc` (part_000 lines 280-299): `db.post(newDoc)`
appends the document locally; then, when `online`, `await manualSync()` runs
with no surrounding try/catch, so a replication failure propagates out of
`createDoc` to its caller.  The result pairs the outcome observed by the
caller with the local store after the call. -/
def createDoc (env : SyncEnv) (store : List InfraDoc) (newDoc : InfraDoc) :
    Except SyncError Unit × List InfraDoc :=
  let store1 := store ++ [newDoc]
  if env.online then
    match manualSync env with
    | Except.ok _ => (Except.ok (), store1)
    | Except.error e => (Except.error e, store1)
  else (Except.ok (), store1)

/-! ## Revision store: winner selection (modelled from the spec)

The application delegates revision storage to PouchDB, whose sources are not
part of this repository, so the revision store is modelled from the spec.
Spec 4.1: among all current leaves pick the one with the longest
revision-chain depth; break ties by comparing revision identifiers. -/

/-- Modelled from the spec: a revision, as its chain depth (generation
number) and its opaque revision identifier.  PouchDB's winner-selection
algorithm itself is not in the repository sources. -/
structure Rev where
  gen : Nat
  id : String
  deriving DecidableEq, Repr

/-- The comparison key of spec 4.1: chain depth first, then the revision
identifier, lexicographically. -/
def revKey (r : Rev) : Lex (Nat × String) := toLex (r.gen, r.id)

instance : LinearOrder Rev :=
  LinearOrder.lift' revKey (by
    intro a b h
    have h2 : (a.gen, a.id) = (b.gen, b.id) := toLex.injective h
    cases a
    cases b
    simpa using h2)

/-- One step of the winner scan: keep the greatest revision seen so far
under the depth-then-identifier order. -/
def winnerStep (acc : Option Rev) (r : Rev) : Option Rev :=
  match acc with
  | none => some r
  | some m => some (max m r)

instance : RightCommutative winnerStep := by
  constructor
  intro b a₁ a₂
  cases b with
  | none => simp [winnerStep, max_comm]
  | some m => simp [winnerStep, sup_right_comm]

/-- Modelled from the spec (4.1): winner selection over the current leaf
revisions of a document — the leaf with the longest chain, ties broken by
revision identifier ordering. -/
def winner (leaves : List Rev) : Option Rev :=
  leaves.foldl winnerStep none

/-! ## Revision store: optimistic concurrency (modelled from the spec)

PouchDB's `put` conflict detection is likewise not part of the repository
sources and is modelled from spec 4.1. -/

/-- Modelled from the spec (9): a node of a document's revision tree — the
revision id, a parent back-reference, and the tombstone flag. -/
structure RevNode where
  rid : String
  parent : Option String
  deleted : Bool
  deriving DecidableEq, Repr

/-- The revision tree of one document id, as its list of nodes. -/
structure DocChain where
  nodes : List RevNode
  deriving DecidableEq, Repr

/-- A revision id is a current leaf of the chain when it is present and no
node points to it as parent. -/
def isLeaf (c : DocChain) (r : String) : Bool :=
  (c.nodes.any fun n => n.rid == r) && !(c.nodes.any fun n => n.parent == some r)

/-- Local CRUD errors of spec 7. -/
inductive DbError where
  | conflict
  | notFound
  deriving DecidableEq, Repr

/-- Modelled from the spec (4.1): `put(doc, expectedParentRev | none)`. When
a parent revision is supplied it must be a current leaf, else the call fails
with `Conflict`; when omitted the call is a create and fails with `Conflict`
if the id already exists.  On success the new revision is appended to the
chain. -/
def putDoc (c : DocChain) (newRid : String) (expectedParentRev : Option String) :
    Except DbError DocChain :=
  match expectedParentRev with
  | some p =>
      if isLeaf c p then
        Except.ok ⟨c.nodes ++ [⟨newRid, some p, false⟩]⟩
      else Except.error DbError.conflict
  | none =>
      if c.nodes.isEmpty then Except.ok ⟨[⟨newRid, none, false⟩]⟩
      else Except.error DbError.conflict

/-- The stored chain after a `put`: the new chain on success, the old chain
untouched when the put fails. -/
def putDocStore (c : DocChain) (newRid : String) (p : Option String) : DocChain :=
  match putDoc c newRid p with
  | Except.ok c2 => c2
  | Except.error _ => c

/-! ## Top-10 query (part_000, query engine modelled from the spec) -/

/-- The order requested by `fetchTopLiked`: `a` precedes `b` when `a`'s
(likes, created_at) key is at least `b`'s under the lexicographic order —
strictly more likes, or equal likes and a created_at at least as recent. -/
def topKeyGe (a b : InfraDoc) : Prop :=
  toLex (b.likes, b.created_at) ≤ toLex (a.likes, a.created_at)

instance : DecidableRel topKeyGe := fun a b =>
  inferInstanceAs (Decidable (toLex (b.likes, b.created_at) ≤ toLex (a.likes, a.created_at)))

instance : IsTotal InfraDoc topKeyGe := ⟨fun _ _ => le_total _ _⟩

instance : IsTrans InfraDoc topKeyGe := ⟨fun _ _ _ hab hbc => le_trans hbc hab⟩

/-- Embedding of `fetchTopLiked` (part_000 lines 224-256) over the stored
documents: mango `find` with selector `likes ≥ 0`, sort
`[likes desc, created_at desc]`, limit 10, skip 0.  The query engine is
PouchDB's and is modelled from spec 4.3: a bounded scan of the
(likes, created_at) index in the requested order, capped by the limit;
a stable insertion sort stands in for the index scan order. -/
def fetchTopLiked (docs : List InfraDoc) : List InfraDoc :=
  ((docs.filter fun d => decide (0 ≤ d.likes)).insertionSort topKeyGe).take 10

/-- The documents the Top-10 query leaves out: the rest of the index scan
beyond the limit. -/
def fetchTopLikedRest (docs : List InfraDoc) : List InfraDoc :=
  ((docs.filter fun d => decide (0 ≤ d.likes)).insertionSort topKeyGe).drop 10

/-! ## In-memory re-sorting in TheWelcome.vue -/

/-- A user document as handled by TheWelcome.vue; `created_at` is modelled
as the numeric timestamp `new Date(u.created_at).getTime()` that the
comparator uses. -/
structure UserDoc where
  _id : String
  email : String
  created_at : Nat
  editing : Bool
  deriving DecidableEq, Repr

/-- The per-row rewrite `{ ...d, editing: false }` of `fetchUsers`. -/
def markNotEditing (u : UserDoc) : UserDoc := { u with editing := false }

/-- The comparator of the JS `.sort` in `fetchUsers`: created_at
descending. -/
def createdDesc (a b : UserDoc) : Prop := b.created_at ≤ a.created_at

instance : DecidableRel createdDesc := fun a b =>
  inferInstanceAs (Decidable (b.created_at ≤ a.created_at))

instance : IsTotal UserDoc createdDesc := ⟨fun _ _ => le_total _ _⟩

instance : IsTrans UserDoc createdDesc := ⟨fun _ _ _ hab hbc => le_trans hbc hab⟩

/-- Embedding of `fetchUsers` (TheWelcome.vue lines 170-186): `allDocs`
hands over `rows` in retrieval order; the function clears `editing` on each
row and then re-sorts the array in memory by `created_at` descending with a
JS `.sort` (stable). -/
def fetchUsers (rows : List UserDoc) : List UserDoc :=
  (rows.map markNotEditing).insertionSort createdDesc

/-! ## The call surface from the UI into the document core -/

/-- The PouchDB operations invoked anywhere in the application's UI code. -/
inductive CoreOp where
  | put | get | remove | find | subscribeToChanges
  | post | bulkDocs | allDocs | createIndex
  | putAttachment | getAttachment | removeAttachment
  | replicateFrom | replicateTo | sync
  deriving DecidableEq, Repr

/-- Core calls of `createDoc` (part_000 lines 280-299): `db.post(newDoc)`. -/
def createDocCalls : List CoreOp := [CoreOp.post]

/-- Core calls of `updateDoc` (part_000 lines 309-331): `db.get`, `db.put`. -/
def updateDocCalls : List CoreOp := [CoreOp.get, CoreOp.put]

/-- Core calls of `deleteDoc` (part_000 lines 333-348). -/
def deleteDocCalls : List CoreOp := [CoreOp.get, CoreOp.remove]

/-- Core calls of `likeDoc` (part_000 lines 362-381). -/
def likeDocCalls : List CoreOp := [CoreOp.get, CoreOp.put]

/-- Core calls of `addComment` (part_000 lines 413-429): `db.post`. -/
def addCommentCalls : List CoreOp := [CoreOp.post]

/-- Core calls of `fetchDocs` (part_000 lines 188-222): `db.allDocs`, then
`db.find` through `fetchCommentsForDoc`. -/
def fetchDocsCalls : List CoreOp := [CoreOp.allDocs, CoreOp.find]

/-- Core calls of `fetchTopLiked` (part_000 lines 224-256). -/
def fetchTopLikedCalls : List CoreOp := [CoreOp.find]

/-- Core calls of `onSearch` (part_000 lines 438-459). -/
def onSearchCalls : List CoreOp := [CoreOp.find]

/-- Core calls of `ensureIndexes` (part_000 lines 142-173). -/
def ensureIndexesCalls : List CoreOp := [CoreOp.createIndex]

/-- Core calls of `generateFake` (part_000 lines 465-487): `db.bulkDocs`. -/
def generateFakeCalls : List CoreOp := [CoreOp.bulkDocs]

/-- Core calls of `addAttachment` (part_000 lines 505-519):
`db.putAttachment` then `db.get`. -/
def addAttachmentCalls : List CoreOp := [CoreOp.putAttachment, CoreOp.get]

/-- Core calls of `openAttachment` (part_000 lines 521-544). -/
def openAttachmentCalls : List CoreOp := [CoreOp.getAttachment]

/-- Core calls of `deleteAttachment` (part_000 lines 546-561). -/
def deleteAttachmentCalls : List CoreOp := [CoreOp.removeAttachment]

/-- Core calls of the replication layer (part_000 lines 589-634):
`replicate.from`, `replicate.to`, `sync`. -/
def replicationCalls : List CoreOp :=
  [CoreOp.replicateFrom, CoreOp.replicateTo, CoreOp.sync]

/-- Every call from the UI layer into the document core, aggregated over the
functions above. -/
def uiCoreCalls : List CoreOp :=
  createDocCalls ++ updateDocCalls ++ deleteDocCalls ++ likeDocCalls ++
  addCommentCalls ++ fetchDocsCalls ++ fetchTopLikedCalls ++ onSearchCalls ++
  ensureIndexesCalls ++ generateFakeCalls ++ addAttachmentCalls ++
  openAttachmentCalls ++ deleteAttachmentCalls ++ replicationCalls

/-- The five operations the spec allows the UI to call. -/
def fiveCoreOps : List CoreOp :=
  [CoreOp.put, CoreOp.get, CoreOp.remove, CoreOp.find, CoreOp.subscribeToChanges]

/-- The operations the UI actually calls beyond the five of the spec. -/
def extraCoreOps : List CoreOp :=
  [CoreOp.post, CoreOp.bulkDocs, CoreOp.allDocs, CoreOp.createIndex,
   CoreOp.putAttachment, CoreOp.getAttachment, CoreOp.removeAttachment,
   CoreOp.replicateFrom, CoreOp.replicateTo, CoreOp.sync]

/-! ## The indexes created by the application -/

/-- The field-path tuples of every index the application creates: the four
`createIndex` calls of `ensureIndexes` (part_000 lines 142-173) and the one
of `initDatabases` (TheWelcome.vue lines 89-93). -/
def appIndexes : List (List String) :=
  [["created_at"], ["likes", "created_at"], ["name"],
   ["docId", "created_at"], ["email"]]

/-! ## Concrete sample inputs -/

/-- A raw document with a non-numeric `likes` and absent `name`/`content`. -/
def rawStrLikes : RawDoc :=
  { _id := some "d1", _rev := some "1-a", _attachments := none,
    name := none, content := none, created_at := none,
    updated_at := some "t1", likes := some (JsonVal.str "five") }

/-- A raw document with a numeric `likes`. -/
def rawNumLikes : RawDoc :=
  { _id := some "d2", _rev := some "2-b", _attachments := none,
    name := some "n", content := some "c", created_at := some "t0",
    updated_at := none, likes := some (JsonVal.num 7) }

/-- A comment state whose draft for document `d1` is whitespace-only. -/
def commentStateSample : CommentState :=
  { store := []
    drafts := fun j => if j = "d1" then some "  " else none }

/-- A live-sync state with an existing handler. -/
def liveSyncSample : LiveSyncState :=
  { localInit := true, remoteInit := true, syncHandler := some 0,
    isSyncing := true, nextSession := 1 }

/-- A plain document, as posted by `createDoc`. -/
def plainDocSample : InfraDoc :=
  { _id := some "d9", _rev := none, _attachments := none, name := "n",
    content := "c", created_at := "t0", updated_at := none, likes := 0 }

/-- A two-revision chain: `1-a` has child `2-b`, so only `2-b` is a leaf. -/
def chainSample : DocChain :=
  ⟨[⟨"1-a", none, false⟩, ⟨"2-b", some "1-a", false⟩]⟩

/-- A document in the shape produced by `generateFake` (part_000 lines
465-487), at index `i` with the given number of likes. -/
def mkFakeDoc (i : Nat) (l : Int) : InfraDoc :=
  { _id := some ("fake_" ++ toString i), _rev := none, _attachments := none,
    name := "Doc " ++ toString i, content := "Contenu " ++ toString i,
    created_at := "t" ++ toString i, updated_at := none, likes := l }

/-- Fifteen generated documents with likes drawn in 0..9. -/
def fakeDocs15 : List InfraDoc :=
  List.zipWith mkFakeDoc (List.range 15)
    [5, 3, 9, 0, 7, 2, 8, 1, 6, 4, 9, 3, 5, 0, 2]

/-- Two user rows in retrieval (id) order, the older one first. -/
def userRowA : UserDoc := ⟨"user:a", "a@x", 1, false⟩

/-- The second, more recent user row. -/
def userRowB : UserDoc := ⟨"user:b", "b@x", 2, false⟩

/-! ## Helper lemmas -/

/-- A string all of whose characters are JS whitespace trims to the empty
string. -/
theorem jsTrim_eq_empty_of_all_ws (s : String)
    (h : ∀ c ∈ s.data, isJsWs c = true) : jsTrim s = "" := by
  have h1 : s.data.dropWhile isJsWs = [] := List.dropWhile_eq_nil_iff.mpr h
  show (⟨jsTrimList s.data⟩ : String) = ""
  unfold jsTrimList
  rw [h1]
  rfl

/-- Scanning a list with `winnerStep` from a seed yields a greatest element:
it is the seed or a list element, dominates the seed, and dominates every
list element. -/
theorem foldl_winnerStep_spec (l : List Rev) (m : Rev) :
    ∃ w, List.foldl winnerStep (some m) l = some w ∧ (w = m ∨ w ∈ l) ∧
      m ≤ w ∧ ∀ r ∈ l, r ≤ w := by
  induction l generalizing m with
  | nil => exact ⟨m, rfl, Or.inl rfl, le_refl m, by simp⟩
  | cons a t ih =>
    obtain ⟨w, hw, hmem, hle, hall⟩ := ih (max m a)
    refine ⟨w, ?_, ?_, ?_, ?_⟩
    · simpa [winnerStep] using hw
    · rcases hmem with h | h
      · rcases max_choice m a with hc | hc
        · exact Or.inl (h.trans hc)
        · exact Or.inr (by rw [h, hc]; exact List.mem_cons_self a t)
      · exact Or.inr (List.mem_cons_of_mem a h)
    · exact le_trans (le_max_left m a) hle
    · intro r hr
      rcases List.mem_cons.mp hr with h | h
      · rw [h]; exact le_trans (le_max_right m a) hle
      · exact hall r h

/-! ## Claim theorems -/

/-- C1: winner selection is a deterministic function of the revision set
alone — two replicas that received the same set of leaf revisions in any
order compute the same winner, and the winner is the greatest leaf under the
longest-branch-then-identifier order. -/
theorem winner_deterministic (l₁ l₂ : List Rev) (h : l₁.Perm l₂) :
    winner l₁ = winner l₂ ∧
    ∀ w, winner l₁ = some w → w ∈ l₁ ∧ ∀ r ∈ l₁, r ≤ w := by
  constructor
  · show List.foldl winnerStep none l₁ = List.foldl winnerStep none l₂
    exact h.foldl_eq none
  · intro w hw
    cases l₁ with
    | nil => simp [winner, List.foldl] at hw
    | cons a t =>
      have h0 : winner (a :: t) = List.foldl winnerStep (some a) t := rfl
      rw [h0] at hw
      obtain ⟨w2, hw2, hmem, hle, hall⟩ := foldl_winnerStep_spec t a
      rw [hw2] at hw
      injection hw with hww
      subst hww
      constructor
      · rcases hmem with hh | hh
        · rw [hh]; exact List.mem_cons_self a t
        · exact List.mem_cons_of_mem a hh
      · intro r hr
        rcases List.mem_cons.mp hr with hh | hh
        · rw [hh]; exact hle
        · exact hall r hh

/-- C1 witness: the same three revisions in two arrival orders give the same
winner. -/
theorem winner_deterministic_witness :
    winner [Rev.mk 2 "b", Rev.mk 1 "z", Rev.mk 2 "a"] =
      winner [Rev.mk 1 "z", Rev.mk 2 "a", Rev.mk 2 "b"] :=
  (winner_deterministic _ _ (by decide)).1

/-- C2: a `put` whose supplied parent revision is not a current leaf of the
document's chain fails with `Conflict`, and the stored chain is not
overwritten. -/
theorem putDoc_stale_parent_conflict (c : DocChain) (newRid p : String)
    (h : isLeaf c p = false) :
    putDoc c newRid (some p) = Except.error DbError.conflict ∧
    putDocStore c newRid (some p) = c := by
  constructor
  · simp [putDoc, h]
  · simp [putDocStore, putDoc, h]

/-- C2 witness: writing against `1-a` after `2-b` superseded it fails with
`Conflict` and leaves the chain unchanged. -/
theorem putDoc_stale_parent_conflict_witness :
    putDoc chainSample "2-c" (some "1-a") = Except.error DbError.conflict ∧
    putDocStore chainSample "2-c" (some "1-a") = chainSample :=
  putDoc_stale_parent_conflict chainSample "2-c" "1-a" (by decide)

/-- C3: with 15 stored documents whose likes lie in 0..9, the Top-10 query
returns a page of exactly 10 documents that, together with the leftover
documents, re-forms the store; the page is ordered by likes descending then
created_at descending, and every returned document dominates every leftover
document under that order. -/
theorem fetchTopLiked_top10 (docs : List InfraDoc)
    (hlen : docs.length = 15)
    (hrange : ∀ d ∈ docs, 0 ≤ d.likes ∧ d.likes ≤ 9) :
    (fetchTopLiked docs).length = 10 ∧
    (fetchTopLiked docs ++ fetchTopLikedRest docs).Perm docs ∧
    List.Sorted topKeyGe (fetchTopLiked docs) ∧
    ∀ d ∈ fetchTopLiked docs, ∀ e ∈ fetchTopLikedRest docs, topKeyGe d e := by
  have hfil : docs.filter (fun d => decide (0 ≤ d.likes)) = docs :=
    List.filter_eq_self.mpr (fun a ha => by simpa using (hrange a ha).1)
  unfold fetchTopLiked fetchTopLikedRest
  rw [hfil]
  have hperm : (docs.insertionSort topKeyGe).Perm docs :=
    List.perm_insertionSort topKeyGe docs
  have hsorted : List.Sorted topKeyGe (docs.insertionSort topKeyGe) :=
    List.sorted_insertionSort topKeyGe docs
  have hlen2 : (docs.insertionSort topKeyGe).length = 15 := by
    rw [hperm.length_eq, hlen]
  refine ⟨?_, ?_, ?_, ?_⟩
  · rw [List.length_take, hlen2]
    decide
  · rw [List.take_append_drop]
    exact hperm
  · exact List.Pairwise.sublist (List.take_sublist 10 _) hsorted
  · have h2 : List.Pairwise topKeyGe
        ((docs.insertionSort topKeyGe).take 10 ++
          (docs.insertionSort topKeyGe).drop 10) := by
      rw [List.take_append_drop]
      exact hsorted
    exact (List.pairwise_append.mp h2).2.2

/-- C3 witness: the scenario at 15 concrete generated documents. -/
theorem fetchTopLiked_top10_witness :
    (fetchTopLiked fakeDocs15).length = 10 :=
  (fetchTopLiked_top10 fakeDocs15 (by decide) (by decide)).1

/-- C4 counterexample: `fetchUsers` does not preserve the retrieval order of
`allDocs` — at a store holding an older row before a newer one it reorders
the rows, so its result order is produced by an in-memory re-sort, not by
the index scan. -/
theorem fetchUsers_no_resort_counterexample :
    fetchUsers [userRowA, userRowB] ≠
      List.map markNotEditing [userRowA, userRowB] := by
  decide

/-- C4 amended: `fetchUsers` re-sorts the retrieved rows in memory — its
result is a permutation of the retrieved rows (with `editing` cleared)
arranged into created_at-descending order by the JS `.sort`. -/
theorem fetchUsers_sorts_in_memory (rows : List UserDoc) :
    (fetchUsers rows).Perm (rows.map markNotEditing) ∧
    List.Sorted createdDesc (fetchUsers rows) :=
  ⟨List.perm_insertionSort createdDesc (rows.map markNotEditing),
   List.sorted_insertionSort createdDesc (rows.map markNotEditing)⟩

/-- C5 counterexample: the UI invokes `db.post` (in `createDoc`), which is
not one of the five operations `put`, `get`, `remove`, `find`,
`subscribeToChanges`. -/
theorem uiCoreCalls_not_five_counterexample :
    CoreOp.post ∈ uiCoreCalls ∧ CoreOp.post ∉ fiveCoreOps := by
  decide

/-- C5 amended: every call from the UI layer into the document core is one
of the five spec operations or one of the ten further PouchDB operations the
application actually uses (post, bulkDocs, allDocs, createIndex, the three
attachment operations, and the three replication entry points). -/
theorem uiCoreCalls_surface (op : CoreOp) (h : op ∈ uiCoreCalls) :
    op ∈ fiveCoreOps ++ extraCoreOps := by
  fin_cases h <;> decide

/-- C5 amended witness: the `db.post` call of `createDoc` is in the actual
surface. -/
theorem uiCoreCalls_surface_witness :
    CoreOp.post ∈ fiveCoreOps ++ extraCoreOps :=
  uiCoreCalls_surface CoreOp.post (by decide)

/-- C6 counterexample: not every index created by the application carries
`docId` as a secondary tie-break key — the single-field `created_at` index
has no `docId` component at all. -/
theorem appIndexes_docId_counterexample :
    ¬ ∀ idx ∈ appIndexes, "docId" ∈ idx ∧ idx.getLast? = some "docId" := by
  decide

/-- C6 amended: no index created by the application ends in a `docId`
tie-break key; the only index mentioning `docId` is the comment index, where
`docId` is the leading field (the parent-document reference), not a
tie-break. -/
theorem appIndexes_docId_amended (idx : List String) (h : idx ∈ appIndexes) :
    idx.getLast? ≠ some "docId" ∧
    ("docId" ∈ idx → idx.head? = some "docId") := by
  fin_cases h <;> decide

/-- C6 amended witness: the `created_at` index. -/
theorem appIndexes_docId_amended_witness :
    (["created_at"] : List String).getLast? ≠ some "docId" :=
  (appIndexes_docId_amended ["created_at"] (by decide)).1

/-- C7 counterexample: with `online = true` and the remote peer unreachable,
`createDoc` itself fails with the transient replication error — the
replication failure is surfaced to the caller of the local CRUD operation —
even though the local write succeeded. -/
theorem createDoc_sync_failure_counterexample :
    (createDoc ⟨true, false⟩ [] plainDocSample).1 =
      Except.error SyncError.transient ∧
    (createDoc ⟨true, false⟩ [] plainDocSample).2 = [plainDocSample] :=
  ⟨rfl, rfl⟩

/-- C7 amended: a replication failure never undoes the local write — the
document is appended to the local store in every case — but when `online`
the unguarded `await manualSync()` makes the CRUD call itself fail exactly
when the remote peer is unreachable; only the live sync session retries
internally. -/
theorem createDoc_local_write_persists (env : SyncEnv)
    (store : List InfraDoc) (d : InfraDoc) :
    (createDoc env store d).2 = store ++ [d] ∧
    ((createDoc env store d).1 = Except.ok () ↔
      (env.online = false ∨ env.remoteReachable = true)) := by
  rcases env with ⟨o, r⟩
  rcases o <;> rcases r <;> simp [createDoc, manualSync]

/-- C8: when a live sync handler already exists, `startLiveSync` keeps the
existing handler, allocates no new session, leaves `isSyncing` untouched,
and a repeated call is a no-op — so at most one live sync session exists. -/
theorem startLiveSync_idempotent (s : LiveSyncState) (h : Nat)
    (hh : s.syncHandler = some h) :
    (startLiveSync s).syncHandler = some h ∧
    (startLiveSync s).nextSession = s.nextSession ∧
    (startLiveSync s).isSyncing = s.isSyncing ∧
    startLiveSync (startLiveSync s) = startLiveSync s := by
  cases s
  simp only at hh
  simp [startLiveSync, hh]

/-- C8 witness: a state that already holds a handler. -/
theorem startLiveSync_idempotent_witness :
    (startLiveSync liveSyncSample).syncHandler = some 0 ∧
    (startLiveSync liveSyncSample).nextSession = liveSyncSample.nextSession :=
  ⟨(startLiveSync_idempotent liveSyncSample 0 rfl).1,
   (startLiveSync_idempotent liveSyncSample 0 rfl).2.1⟩

/-- C9: when the comment draft for a document is empty or whitespace-only,
`addComment` performs no write — the comment store and the draft map are
returned unchanged. -/
theorem addComment_whitespace_noop (s : CommentState) (id now : String)
    (h : ∀ c ∈ (getDraft s id).data, isJsWs c = true) :
    addComment s (some id) now = s := by
  have ht : jsTrim (getDraft s id) = "" := jsTrim_eq_empty_of_all_ws _ h
  unfold addComment
  simp [ht]

/-- C9 witness: a whitespace-only draft is a no-op. -/
theorem addComment_whitespace_noop_witness :
    addComment commentStateSample (some "d1") "t2" = commentStateSample :=
  addComment_whitespace_noop commentStateSample "d1" "t2" (by decide)

/-- C10: `normalizeDoc` is total and defaulting — it keeps a numeric `likes`
and otherwise defaults it to 0, defaults absent `name` and `content` to the
empty string, and passes `_id`, `_rev` and `updated_at` through unchanged. -/
theorem normalizeDoc_defaulting (raw : RawDoc) (now : String) :
    (normalizeDoc raw now)._id = raw._id ∧
    (normalizeDoc raw now)._rev = raw._rev ∧
    (normalizeDoc raw now).updated_at = raw.updated_at ∧
    (∀ n : Int, raw.likes = some (JsonVal.num n) →
      (normalizeDoc raw now).likes = n) ∧
    ((∀ n : Int, raw.likes ≠ some (JsonVal.num n)) →
      (normalizeDoc raw now).likes = 0) ∧
    (raw.name = none → (normalizeDoc raw now).name = "") ∧
    (raw.content = none → (normalizeDoc raw now).content = "") := by
  refine ⟨rfl, rfl, rfl, ?_, ?_, ?_, ?_⟩
  · intro n hn
    simp [normalizeDoc, hn]
  · intro h
    rcases hv : raw.likes with _ | v
    · simp [normalizeDoc, hv]
    · cases v with
      | num n => exact absurd hv (h n)
      | str s => simp [normalizeDoc, hv]
      | boolean b => simp [normalizeDoc, hv]
      | null => simp [normalizeDoc, hv]
  · intro h
    simp [normalizeDoc, h]
  · intro h
    simp [normalizeDoc, h]

/-- C10 witness: a non-numeric `likes` defaults to 0 with absent fields
defaulted, and a numeric `likes` is kept. -/
theorem normalizeDoc_defaulting_witness :
    (normalizeDoc rawStrLikes "now").likes = 0 ∧
    (normalizeDoc rawStrLikes "now").name = "" ∧
    (normalizeDoc rawStrLikes "now").content = "" ∧
    (normalizeDoc rawNumLikes "now").likes = 7 := by
  have h1 := normalizeDoc_defaulting rawStrLikes "now"
  have h2 := normalizeDoc_defaulting rawNumLikes "now"
  refine ⟨h1.2.2.2.2.1 ?_, h1.2.2.2.2.2.1 rfl, h1.2.2.2.2.2.2 rfl,
    h2.2.2.2.1 7 rfl⟩
  intro n hn
  simp [rawStrLikes] at hn

end InfraDon
